import Mathlib

/-!
Shallow embedding of the machine-operator-monitor program (Go source,
`main.go` variant with the `Operator` tracker).  Times (`time.Time`,
`time.Duration`) are modelled as `Int` nanoseconds; floating-point model
outputs (`float64`) are modelled as `Rat`; Go nil-able pointers
(`*Status` inside `Result`) are modelled as `Option Status`.
-/

namespace Monitor

/-- `Status` stores machine operator status (source: `type Status struct`). -/
structure Status where
  IsWatching : Bool
  IsAngry : Bool
  checked : Bool
  deriving Repr, DecidableEq

/-- `Operator` is the machine operator tracker state
(source: `type Operator struct`).  The `now`/`prev` pointers are owned by a
single goroutine, so they are embedded as plain values; `time.Time` markers
are `Int` nanoseconds, with the Go zero time embedded as `0`. -/
structure Operator where
  now : Status
  prev : Status
  timeStoppedWatching : Int
  timeStartAngry : Int
  deriving Repr, DecidableEq

/-- `Result` is the monitoring computation result returned to the main
goroutine (source: `type Result struct`).  The `status *Status` pointer is
embedded as `Option Status`, `none` standing for the nil pointer. -/
structure Result where
  status : Option Status
  AlertWatching : Bool
  AlertAngry : Bool
  deriving Repr, DecidableEq

/-- `Perf` stores inference engine performance info (source: `type Perf`). -/
structure Perf where
  FaceNet : Rat
  SentNet : Rat
  PoseNet : Rat
  deriving Repr, DecidableEq

/-- The two timeout flags (`-watch-timeout`, `-angry-timeout`), read by the
worker as package-level variables; both are `time.Duration` values. -/
structure Config where
  watchTimeout : Int
  angryTimeout : Int
  deriving Repr, DecidableEq

/-- Go's zero-valued `Result` produced by `result := new(Result)` in `main`:
nil status pointer, both alert flags false. -/
def newResult : Result := { status := none, AlertWatching := false, AlertAngry := false }

/-- Go's `%v` rendering of a boolean. -/
def boolString (b : Bool) : String := if b then "true" else "false"

/-- `Result.String` (source: `func (r *Result) String() string`), which
formats `"Watching %v, Angry: %v"` from `r.status.IsWatching` and
`r.status.IsAngry`.  The dereference of the `status` pointer is modelled by
`Option.map`: a nil `status` yields `none` (the Go code would fault). -/
def Result.render (r : Result) : Option String :=
  r.status.map fun s =>
    "Watching " ++ boolString s.IsWatching ++ ", Angry: " ++ boolString s.IsAngry

/-- `Result.ToMQTTMessage` (source: `func (r *Result) ToMQTTMessage() string`),
which formats `"{\"Watching\":%v, \"Angry\": %v}"` from the two status
booleans.  As in `Result.render`, dereferencing a nil `status` yields `none`. -/
def Result.toMQTTMessage (r : Result) : Option String :=
  r.status.map fun s =>
    "\x7b\"Watching\":" ++ boolString s.IsWatching ++ ", \"Angry\": " ++ boolString s.IsAngry ++ "\x7d"

/-- `getPerformanceInfo` (source lines 199-215): `freq := GetTickFrequency()/1000`;
the face profile is always divided by `freq`, the pose and sentiment profiles
only when `statusChecked` holds, otherwise the two Go locals keep their zero
value.  The raw `GetPerfProfile` readings and the tick frequency are inputs. -/
def getPerformanceInfo (tickFrequency facePerfProfile sentPerfProfile posePerfProfile : Rat)
    (statusChecked : Bool) : Perf :=
  let freq := tickFrequency / 1000
  let facePerf := facePerfProfile / freq
  let posePerf := if statusChecked then posePerfProfile / freq else 0
  let sentPerf := if statusChecked then sentPerfProfile / freq else 0
  { FaceNet := facePerf, SentNet := sentPerf, PoseNet := posePerf }

/-- One processing cycle of `frameRunner` (source lines 356-405) on a detected
`status`, at wall-clock time `now`:
* when `status.checked`, copy the detected booleans into `o.now`, record the
  markers on the two transition edges, and recompute both alert flags from
  scratch (note: the sustained-angry branch compares `elapsed` against
  `watchTimeout`, exactly as line 383 of the source does);
* when not checked, the whole block is skipped and both alerts stay false;
* in either case the emitted `Result` carries the detected status, and
  afterwards `o.prev.IsWatching`/`o.prev.IsAngry` are unconditionally
  overwritten with the detected booleans (source lines 403-405). -/
def frameStep (cfg : Config) (now : Int) (status : Status) (o : Operator) :
    Operator × Result :=
  let o1 :=
    if status.checked then
      let nowSt := { o.now with IsWatching := status.IsWatching, IsAngry := status.IsAngry }
      -- if operator stopped watching, record the time
      let tSW := if o.prev.IsWatching && !nowSt.IsWatching then now else o.timeStoppedWatching
      -- if operator started being angry, record the time
      let tSA := if !o.prev.IsAngry && nowSt.IsAngry then now else o.timeStartAngry
      { o with now := nowSt, timeStoppedWatching := tSW, timeStartAngry := tSA }
    else o
  -- if operator continues not to watch machine and exceeds timeout, set alert
  let alertWatching :=
    if status.checked && (!o1.prev.IsWatching && !o1.now.IsWatching) then
      decide (now - o1.timeStoppedWatching > cfg.watchTimeout)
    else false
  -- if operator remains angry and exceeds timeout, set alert (the source
  -- compares against watchTimeout here, not angryTimeout)
  let alertAngry :=
    if status.checked && (o1.prev.IsAngry && o1.now.IsAngry) then
      decide (now - o1.timeStartAngry > cfg.watchTimeout)
    else false
  let result : Result :=
    { status := some status, AlertWatching := alertWatching, AlertAngry := alertAngry }
  -- latest status is now prev status (unconditional in the source)
  let o2 := { o1 with prev := { o1.prev with IsWatching := status.IsWatching,
                                             IsAngry := status.IsAngry } }
  (o2, result)

/-- A rectangle with the corner fields of Go's `image.Rectangle`
(`Min.X`, `Min.Y`, `Max.X`, `Max.Y`). -/
structure Rect where
  minX : Int
  minY : Int
  maxX : Int
  maxY : Int
  deriving Repr, DecidableEq

/-- Go's `image.Rect(x0, y0, x1, y1)`, which swaps coordinates so that the
returned rectangle is well-formed. -/
def mkRect (x0 y0 x1 y1 : Int) : Rect :=
  let p := if x1 < x0 then (x1, x0) else (x0, x1)
  let q := if y1 < y0 then (y1, y0) else (y0, y1)
  { minX := p.1, minY := q.1, maxX := p.2, maxY := q.2 }

/-- Go's `Rectangle.Empty`: no points inside. -/
def Rect.isEmpty (r : Rect) : Bool :=
  r.minX ≥ r.maxX || r.minY ≥ r.maxY

/-- Go's `Rectangle.In`: every point of `r` is in `s` (an empty rectangle is
in every rectangle). -/
def Rect.inside (r s : Rect) : Bool :=
  if r.isEmpty then true
  else
    decide (s.minX ≤ r.minX) && decide (r.maxX ≤ s.maxX) &&
    decide (s.minY ≤ r.minY) && decide (r.maxY ≤ s.maxY)

/-- The data `detectStatus` extracts for one detected face region: its
rectangle, the head-pose network outputs read at `angle_y_fc` (yaw) and
`angle_p_fc` (pitch), and the top sentiment's confidence and row index
(`maxLoc.Y`) from `MinMaxLoc` over the reshaped sentiment output.  The
network forward passes themselves are opaque; their outputs are inputs here. -/
structure FaceData where
  rect : Rect
  angleY : Rat
  angleP : Rat
  sentConf : Rat
  sentMaxLocY : Int
  deriving Repr, DecidableEq

/-- The per-region body of the loop in `detectStatus` (source lines 251-303):
skip regions not completely inside the frame; set `IsWatching` when both the
yaw and pitch outputs lie strictly between -22.5 and 22.5; set `IsAngry` when
the top sentiment confidence exceeds `sentConfidence` and its index is 4; and
mark the status `checked`.  Flags are only ever set, never cleared. -/
def detectStep (cols rows : Int) (sentConfidence : Rat) (s : Status) (f : FaceData) : Status :=
  if !(f.rect.inside (mkRect 0 0 cols rows)) then s
  else
    let s :=
      if (f.angleY > -22.5 ∧ f.angleY < 22.5) ∧ (f.angleP > -22.5 ∧ f.angleP < 22.5) then
        { s with IsWatching := true }
      else s
    let s :=
      if f.sentConf > sentConfidence then
        if f.sentMaxLocY = 4 then { s with IsAngry := true } else s
      else s
    { s with checked := true }

/-- `detectStatus` (source lines 244-306): start from the zero-valued
`Status` (`s := new(Status)`) and run the region loop over all detected
faces in order. -/
def detectStatus (cols rows : Int) (sentConfidence : Rat) (faces : List FaceData) : Status :=
  faces.foldl (detectStep cols rows sentConfidence) ⟨false, false, false⟩

/-- The pose condition of source lines 270-271 for one face region. -/
def poseWatching (f : FaceData) : Bool :=
  decide ((f.angleY > -22.5 ∧ f.angleY < 22.5) ∧ (f.angleP > -22.5 ∧ f.angleP < 22.5))

/-- The sentiment condition of source lines 289-292 for one face region. -/
def sentAngry (sentConfidence : Rat) (f : FaceData) : Bool :=
  decide (f.sentConf > sentConfidence) && decide (f.sentMaxLocY = 4)

/-- Validity filter of source line 253: the face rectangle is completely
inside the frame. -/
def validRegion (cols rows : Int) (f : FaceData) : Bool :=
  f.rect.inside (mkRect 0 0 cols rows)

/-- The operator state created in `main`: `operator := new(Operator)` with
fresh zero-valued `Status` values and zero-valued time markers. -/
def initOperator : Operator :=
  { now := ⟨false, false, false⟩, prev := ⟨false, false, false⟩,
    timeStoppedWatching := 0, timeStartAngry := 0 }

/-- Run `frameRunner` cycles over a list of (wall-clock time, detected status)
pairs, threading the operator state and collecting the emitted results. -/
def runFrames (cfg : Config) (o : Operator) :
    List (Int × Status) → Operator × List Result
  | [] => (o, [])
  | (t, st) :: rest =>
    let p := frameStep cfg t st o
    let q := runFrames cfg p.1 rest
    (q.1, p.2 :: q.2)

/-- Strip an expected prefix from a character list, returning the remainder
when the prefix matches. -/
def dropPrefixCh : List Char → List Char → Option (List Char)
  | [], cs => some cs
  | _ :: _, [] => none
  | p :: ps, c :: cs => if c = p then dropPrefixCh ps cs else none

/-- Parse a Go `%v` boolean (`true` or `false`) at the head of a character
list, returning it with the remainder. -/
def parseBoolCh (cs : List Char) : Option (Bool × List Char) :=
  match dropPrefixCh "true".data cs with
  | some rest => some (true, rest)
  | none =>
    match dropPrefixCh "false".data cs with
    | some rest => some (false, rest)
    | none => none

/-- Modelled from the spec: the telemetry consumer's parser for the
JSON-shaped payload `\x7b"Watching": <bool>, "Angry": <bool>\x7d` (the
repository contains no parser; the spec's round-trip property needs one).
It accepts exactly the payload shape the program emits and recovers the two
boolean fields. -/
def parseMQTTMessage (msg : String) : Option (Bool × Bool) :=
  match dropPrefixCh "\x7b\"Watching\":".data msg.data with
  | none => none
  | some r1 =>
    match parseBoolCh r1 with
    | none => none
    | some (w, r2) =>
      match dropPrefixCh ", \"Angry\": ".data r2 with
      | none => none
      | some r3 =>
        match parseBoolCh r3 with
        | none => none
        | some (a, r4) => if r4 = "\x7d".data then some (w, a) else none

/-- The spec-side sustained-hold predicate: at cycle `i` of a trace, the
condition `sel` has held continuously since an earlier checked observation
recorded strictly more than `timeout` before cycle `i`: some earlier checked
cycle `j` shows the condition, every checked cycle between `j` and `i` shows
the condition, and the wall-clock span from `j` to `i` strictly exceeds
`timeout`. -/
def condHeldLonger (sel : Status → Bool) (timeout : Int)
    (trace : List (Int × Status)) (i : Nat) : Prop :=
  ∃ j tj stj ti sti, j < i ∧
    trace.get? j = some (tj, stj) ∧ trace.get? i = some (ti, sti) ∧
    stj.checked = true ∧ sel stj = true ∧ ti - tj > timeout ∧
    ∀ k t st, j ≤ k → k ≤ i → trace.get? k = some (t, st) →
      st.checked = true → sel st = true

/-- C1: on a sustained-angry checked cycle the worker compares the elapsed
time since `timeStartAngry` against `watchTimeout`, not `angryTimeout`
(source line 383).  With `watchTimeout` = 5s and `angryTimeout` = 10s, a
sustained-angry frame 7s after the marker raises `AlertAngry` even though
the elapsed time does not exceed the configured angry timeout. -/
theorem angry_alert_uses_watch_timeout :
    ((frameStep ⟨5000000000, 10000000000⟩ 7000000000 ⟨true, true, true⟩
        { initOperator with prev := ⟨true, true, false⟩ }).2.AlertAngry = true) ∧
    ((7000000000 : Int) - 0 ≤ 10000000000) := by
  constructor
  · decide
  · decide

/-- C2 counterexample: a `checked = false` outcome does not leave the tracker
state unchanged — the previous snapshot is overwritten.  From a state whose
previous snapshot is (watching, angry), an unchecked cycle resets
`prev.IsAngry` (and `prev.IsWatching`) to false. -/
theorem unchecked_frame_changes_prev_cex :
    ((frameStep ⟨5000000000, 5000000000⟩ 100 ⟨false, false, false⟩
        { initOperator with prev := ⟨true, true, false⟩ }).1.prev.IsAngry = false) ∧
    (({ initOperator with prev := ⟨true, true, false⟩ } : Operator).prev.IsAngry = true) := by
  constructor
  · decide
  · decide

/-- C2 amended: a `checked = false` outcome leaves the current snapshot and
both temporal markers unchanged and emits a `Result` with both alert flags
false, but the previous snapshot's booleans are unconditionally overwritten
with the outcome's (zero-valued) booleans. -/
theorem unchecked_frame_effect (cfg : Config) (now : Int) (st : Status)
    (o : Operator) (h : st.checked = false) :
    (frameStep cfg now st o).1.now = o.now ∧
    (frameStep cfg now st o).1.timeStoppedWatching = o.timeStoppedWatching ∧
    (frameStep cfg now st o).1.timeStartAngry = o.timeStartAngry ∧
    (frameStep cfg now st o).2.AlertWatching = false ∧
    (frameStep cfg now st o).2.AlertAngry = false ∧
    (frameStep cfg now st o).1.prev.IsWatching = st.IsWatching ∧
    (frameStep cfg now st o).1.prev.IsAngry = st.IsAngry := by
  simp [frameStep, h]

/-- Witness for `unchecked_frame_effect` at a concrete unchecked outcome. -/
theorem unchecked_frame_effect_witness :
    ((⟨false, false, false⟩ : Status).checked = false) ∧
    ((frameStep ⟨5000000000, 5000000000⟩ 100 ⟨false, false, false⟩
        { initOperator with prev := ⟨true, true, false⟩ }).1.now =
        ({ initOperator with prev := ⟨true, true, false⟩ } : Operator).now ∧
      (frameStep ⟨5000000000, 5000000000⟩ 100 ⟨false, false, false⟩
        { initOperator with prev := ⟨true, true, false⟩ }).1.timeStoppedWatching =
        ({ initOperator with prev := ⟨true, true, false⟩ } : Operator).timeStoppedWatching ∧
      (frameStep ⟨5000000000, 5000000000⟩ 100 ⟨false, false, false⟩
        { initOperator with prev := ⟨true, true, false⟩ }).1.timeStartAngry =
        ({ initOperator with prev := ⟨true, true, false⟩ } : Operator).timeStartAngry ∧
      (frameStep ⟨5000000000, 5000000000⟩ 100 ⟨false, false, false⟩
        { initOperator with prev := ⟨true, true, false⟩ }).2.AlertWatching = false ∧
      (frameStep ⟨5000000000, 5000000000⟩ 100 ⟨false, false, false⟩
        { initOperator with prev := ⟨true, true, false⟩ }).2.AlertAngry = false ∧
      (frameStep ⟨5000000000, 5000000000⟩ 100 ⟨false, false, false⟩
        { initOperator with prev := ⟨true, true, false⟩ }).1.prev.IsWatching =
        (⟨false, false, false⟩ : Status).IsWatching ∧
      (frameStep ⟨5000000000, 5000000000⟩ 100 ⟨false, false, false⟩
        { initOperator with prev := ⟨true, true, false⟩ }).1.prev.IsAngry =
        (⟨false, false, false⟩ : Status).IsAngry) :=
  ⟨rfl, unchecked_frame_effect ⟨5000000000, 5000000000⟩ 100 ⟨false, false, false⟩
    { initOperator with prev := ⟨true, true, false⟩ } rfl⟩

/-- C9: `main` initializes `result := new(Result)`, whose `status` pointer is
nil; the default select branch renders this value before any worker result
has arrived, so `Result.String` (and `ToMQTTMessage`, were it reached)
dereferences a nil `status` — modelled by `none`. -/
theorem initial_result_nil_status :
    newResult.status = none ∧
    Result.render newResult = none ∧
    Result.toMQTTMessage newResult = none :=
  ⟨rfl, rfl, rfl⟩

/-- C10: with `statusChecked = false`, `getPerformanceInfo` leaves the pose
and sentiment figures at their zero values and still reports the face
detector's measured time divided by the tick frequency. -/
theorem perf_unchecked_skips_nets (tickFrequency facePerfProfile sentPerfProfile posePerfProfile : Rat) :
    getPerformanceInfo tickFrequency facePerfProfile sentPerfProfile posePerfProfile false =
      { FaceNet := facePerfProfile / (tickFrequency / 1000), SentNet := 0, PoseNet := 0 } := by
  rfl

/-- C3 counterexample: with both timeouts at 5s, run angry(t=0s),
unchecked(t=3s), angry(t=6s) from the initial state.  The two checked angry
frames straddle the 5s boundary (6s elapsed since the original edge at t=0),
yet the third cycle raises no angry alert: the unchecked frame reset the
previous snapshot, so the third cycle is treated as a fresh edge and
re-records `timeStartAngry` at 6s. -/
theorem unchecked_gap_no_angry_alert_cex :
    ((runFrames ⟨5000000000, 5000000000⟩ initOperator
        [(0, ⟨true, true, true⟩), (3000000000, ⟨false, false, false⟩),
         (6000000000, ⟨true, true, true⟩)]).2.map Result.AlertAngry =
      [false, false, false]) ∧
    ((runFrames ⟨5000000000, 5000000000⟩ initOperator
        [(0, ⟨true, true, true⟩), (3000000000, ⟨false, false, false⟩),
         (6000000000, ⟨true, true, true⟩)]).1.timeStartAngry = 6000000000) ∧
    ((6000000000 : Int) - 0 > 5000000000) := by
  refine ⟨by decide, by decide, by decide⟩

/-- C3 amended: the unchecked frame itself leaves `timeStartAngry` unchanged,
but it resets the previous snapshot to not-angry, so the next checked angry
cycle is treated as a fresh transition edge: it re-records `timeStartAngry`
at its own wall-clock time and raises no alert on that cycle, for any frame
times. -/
theorem unchecked_between_angry_frames (cfg : Config) (t1 t2 t3 : Int)
    (st u : Status) (hc : st.checked = true) (ha : st.IsAngry = true)
    (hu : u.checked = false) (hua : u.IsAngry = false) :
    (runFrames cfg initOperator [(t1, st), (t2, u)]).1.timeStartAngry = t1 ∧
    (runFrames cfg initOperator [(t1, st), (t2, u), (t3, st)]).1.timeStartAngry = t3 ∧
    (runFrames cfg initOperator [(t1, st), (t2, u), (t3, st)]).2.map Result.AlertAngry =
      [false, false, false] := by
  simp [runFrames, frameStep, initOperator, hc, ha, hu, hua]

/-- Witness for `unchecked_between_angry_frames` at concrete statuses and
times. -/
theorem unchecked_between_angry_frames_witness :
    ((⟨true, true, true⟩ : Status).checked = true) ∧
    ((⟨true, true, true⟩ : Status).IsAngry = true) ∧
    ((⟨false, false, false⟩ : Status).checked = false) ∧
    ((⟨false, false, false⟩ : Status).IsAngry = false) ∧
    ((runFrames ⟨5000000000, 5000000000⟩ initOperator
        [(0, ⟨true, true, true⟩), (3000000000, ⟨false, false, false⟩)]).1.timeStartAngry = 0 ∧
      (runFrames ⟨5000000000, 5000000000⟩ initOperator
        [(0, ⟨true, true, true⟩), (3000000000, ⟨false, false, false⟩),
         (6000000000, ⟨true, true, true⟩)]).1.timeStartAngry = 6000000000 ∧
      (runFrames ⟨5000000000, 5000000000⟩ initOperator
        [(0, ⟨true, true, true⟩), (3000000000, ⟨false, false, false⟩),
         (6000000000, ⟨true, true, true⟩)]).2.map Result.AlertAngry =
        [false, false, false]) :=
  ⟨rfl, rfl, rfl, rfl,
    unchecked_between_angry_frames ⟨5000000000, 5000000000⟩ 0 3000000000 6000000000
      ⟨true, true, true⟩ ⟨false, false, false⟩ rfl rfl rfl rfl⟩

/-- C5 counterexample, two independent failures of the sustained-hold claim:
(a) the very first checked not-watching frame (10s after the zero marker)
raises `AlertWatching`, though the condition has not held since any earlier
observation; (b) with `angryTimeout` = 10s, two angry frames 7s apart raise
`AlertAngry` although the condition has not held longer than its own
configured timeout. -/
theorem alert_without_sustained_hold_cex :
    (((runFrames ⟨5000000000, 5000000000⟩ initOperator
          [(10000000000, ⟨false, false, true⟩)]).2.map Result.AlertWatching = [true]) ∧
      ¬ condHeldLonger (fun st => !st.IsWatching) 5000000000
          [((10000000000 : Int), (⟨false, false, true⟩ : Status))] 0) ∧
    (((runFrames ⟨5000000000, 10000000000⟩ initOperator
          [(0, ⟨true, true, true⟩), (7000000000, ⟨true, true, true⟩)]).2.map
            Result.AlertAngry = [false, true]) ∧
      ¬ condHeldLonger (fun st => st.IsAngry) 10000000000
          [((0 : Int), (⟨true, true, true⟩ : Status)),
           ((7000000000 : Int), (⟨true, true, true⟩ : Status))] 1) := by
  refine ⟨⟨by decide, ?_⟩, ⟨by decide, ?_⟩⟩
  · rintro ⟨j, tj, stj, ti, sti, hj, -, -, -, -, -, -⟩
    omega
  · rintro ⟨j, tj, stj, ti, sti, hj, hgj, hgi, -, -, hgt, -⟩
    have hj0 : j = 0 := by omega
    subst hj0
    simp only [List.get?] at hgj hgi
    have h1 : (0 : Int) = tj := by
      simpa using congrArg (fun p => (Option.map Prod.fst p)) hgj
    have h2 : (7000000000 : Int) = ti := by
      simpa using congrArg (fun p => (Option.map Prod.fst p)) hgi
    omega

/-- C5 amended: an alert flag is true exactly on checked cycles where the
condition holds in both the previous and the current snapshot and the time
since the corresponding stored marker strictly exceeds `watchTimeout` (both
alerts compare against `watchTimeout`); the marker need not mark the onset
of a continuous hold — it is the initial zero time before any recorded edge,
and the previous snapshot is reset by unchecked frames. -/
theorem alert_flags_exact (cfg : Config) (now : Int) (st : Status) (o : Operator) :
    ((frameStep cfg now st o).2.AlertWatching =
      (st.checked && (!o.prev.IsWatching && !st.IsWatching) &&
        decide (now - o.timeStoppedWatching > cfg.watchTimeout))) ∧
    ((frameStep cfg now st o).2.AlertAngry =
      (st.checked && (o.prev.IsAngry && st.IsAngry) &&
        decide (now - o.timeStartAngry > cfg.watchTimeout))) := by
  cases hc : st.checked <;>
    cases hpw : o.prev.IsWatching <;>
      cases hpa : o.prev.IsAngry <;>
        cases hw : st.IsWatching <;>
          cases ha : st.IsAngry <;>
            simp [frameStep, hc, hpw, hpa, hw, ha]

/-- C6: an alert flag is never true while the condition that triggered it
does not hold in the `Result`'s own (current) status: the emitted `Result`
carries the detected status, `AlertWatching` forces `IsWatching = false`
and `AlertAngry` forces `IsAngry = true` in it. -/
theorem alert_implies_condition (cfg : Config) (now : Int) (st : Status) (o : Operator) :
    ((frameStep cfg now st o).2.status = some st) ∧
    (((frameStep cfg now st o).2.AlertWatching && st.IsWatching) = false) ∧
    (((frameStep cfg now st o).2.AlertAngry && !st.IsAngry) = false) := by
  refine ⟨rfl, ?_, ?_⟩ <;>
    cases hc : st.checked <;>
      cases hpw : o.prev.IsWatching <;>
        cases hpa : o.prev.IsAngry <;>
          cases hw : st.IsWatching <;>
            cases ha : st.IsAngry <;>
              simp [frameStep, hc, hpw, hpa, hw, ha]

/-- A valid region's loop body: each flag becomes its old value OR-ed with
the region's own classification, and `checked` becomes true. -/
lemma detectStep_valid (cols rows : Int) (th : Rat) (s : Status) (f : FaceData)
    (h : validRegion cols rows f = true) :
    detectStep cols rows th s f =
      ⟨s.IsWatching || poseWatching f, s.IsAngry || sentAngry th f, true⟩ := by
  by_cases hp : (f.angleY > -22.5 ∧ f.angleY < 22.5) ∧ (f.angleP > -22.5 ∧ f.angleP < 22.5) <;>
    by_cases hs1 : f.sentConf > th <;>
      by_cases hs2 : f.sentMaxLocY = 4 <;>
        simp [detectStep, validRegion, poseWatching, sentAngry, h, hp, hs1, hs2] at * <;>
          simp_all

/-- A region not completely inside the frame is skipped (`continue`). -/
lemma detectStep_invalid (cols rows : Int) (th : Rat) (s : Status) (f : FaceData)
    (h : validRegion cols rows f = false) :
    detectStep cols rows th s f = s := by
  simp [detectStep, validRegion] at *
  simp [h]

/-- Characterization of the `detectStatus` region loop from any accumulator:
each output field is the accumulator field OR-ed with the disjunction over
all valid regions. -/
lemma detectStatus_foldl (cols rows : Int) (th : Rat) (faces : List FaceData) :
    ∀ s : Status, faces.foldl (detectStep cols rows th) s =
      ⟨s.IsWatching || faces.any (fun f => validRegion cols rows f && poseWatching f),
       s.IsAngry || faces.any (fun f => validRegion cols rows f && sentAngry th f),
       s.checked || faces.any (fun f => validRegion cols rows f)⟩ := by
  induction faces with
  | nil => intro s; simp
  | cons f fs ih =>
    intro s
    rw [List.foldl_cons, ih]
    cases hv : validRegion cols rows f
    · rw [detectStep_invalid cols rows th s f hv]
      simp [hv]
    · rw [detectStep_valid cols rows th s f hv]
      simp [hv, Bool.or_assoc]

/-- C4 counterexample: a frame with two valid face regions, the first
watching and the second not, classifies as watching — not as the last
region alone would. -/
theorem multi_face_not_last_region_cex :
    ((detectStatus 100 100 (1/2)
        [⟨⟨0, 0, 10, 10⟩, 0, 0, 0, 0⟩, ⟨⟨0, 0, 10, 10⟩, 30, 0, 0, 0⟩]).IsWatching = true) ∧
    ((detectStatus 100 100 (1/2) [⟨⟨0, 0, 10, 10⟩, 30, 0, 0, 0⟩]).IsWatching = false) ∧
    (validRegion 100 100 ⟨⟨0, 0, 10, 10⟩, 0, 0, 0, 0⟩ = true) ∧
    (validRegion 100 100 ⟨⟨0, 0, 10, 10⟩, 30, 0, 0, 0⟩ = true) := by
  refine ⟨?_, ?_, by decide, by decide⟩ <;>
    rw [detectStatus, detectStatus_foldl] <;>
      norm_num [validRegion, poseWatching, Rect.inside, Rect.isEmpty, mkRect]

/-- C4 amended: `detectStatus` processes every valid region, and a flag set
by any region is never cleared by a later one: the outcome's watching/angry
flags are the disjunctions of the per-region classifications over all valid
regions (any-region-wins, not last-region-wins), and `checked` holds iff
some valid region exists. -/
theorem detectStatus_any_region_wins (cols rows : Int) (th : Rat) (faces : List FaceData) :
    ((detectStatus cols rows th faces).IsWatching =
      faces.any (fun f => validRegion cols rows f && poseWatching f)) ∧
    ((detectStatus cols rows th faces).IsAngry =
      faces.any (fun f => validRegion cols rows f && sentAngry th f)) ∧
    ((detectStatus cols rows th faces).checked =
      faces.any (fun f => validRegion cols rows f)) := by
  rw [detectStatus, detectStatus_foldl]
  simp

/-- C7: for a processed (valid) face region, the classification marks the
operator watching iff both the yaw (`angle_y_fc`) and pitch (`angle_p_fc`)
outputs lie strictly between -22.5 and 22.5. -/
theorem watching_iff_angles_in_range (cols rows : Int) (th : Rat) (f : FaceData)
    (h : validRegion cols rows f = true) :
    (detectStatus cols rows th [f]).IsWatching =
      decide ((f.angleY > -22.5 ∧ f.angleY < 22.5) ∧
              (f.angleP > -22.5 ∧ f.angleP < 22.5)) := by
  rw [detectStatus, List.foldl_cons, List.foldl_nil,
    detectStep_valid cols rows th _ f h]
  simp [poseWatching]

/-- Witness for `watching_iff_angles_in_range`: a region with yaw 10 and
pitch -10 inside a 100x100 frame. -/
theorem watching_iff_angles_in_range_witness :
    (validRegion 100 100 ⟨⟨0, 0, 10, 10⟩, 10, -10, 0, 0⟩ = true) ∧
    ((detectStatus 100 100 (1/2) [⟨⟨0, 0, 10, 10⟩, 10, -10, 0, 0⟩]).IsWatching =
      decide ((((10 : Rat) > -22.5 ∧ (10 : Rat) < 22.5) ∧
               ((-10 : Rat) > -22.5 ∧ (-10 : Rat) < 22.5)))) :=
  ⟨by decide, watching_iff_angles_in_range 100 100 (1/2) ⟨⟨0, 0, 10, 10⟩, 10, -10, 0, 0⟩ (by decide)⟩

/-- C8: serializing a worker-produced `Result` yields exactly the payload
object with the two boolean fields taken from the status (independently of
both alert flags, which do not appear in it), and parsing the payload back
recovers the watching/angry pair. -/
theorem mqtt_roundtrip (st : Status) (a b : Bool) :
    (Result.toMQTTMessage ⟨some st, a, b⟩ =
      some ("\x7b\"Watching\":" ++ boolString st.IsWatching ++
            ", \"Angry\": " ++ boolString st.IsAngry ++ "\x7d")) ∧
    ((Result.toMQTTMessage ⟨some st, a, b⟩).bind parseMQTTMessage =
      some (st.IsWatching, st.IsAngry)) := by
  refine ⟨rfl, ?_⟩
  cases hw : st.IsWatching <;> cases ha : st.IsAngry <;>
    simp [Result.toMQTTMessage, boolString, hw, ha] <;> decide

end Monitor
